import Mathlib

/-!
Shallow embedding of the host-side WiFi raw command/response correlator and
promiscuous-packet event dispatcher from main/wifi_raw.c, together with the
packed wire-format records of wifi_raw_msgs.h.

Modelling conventions:
- byte buffers are lists of natural numbers (each byte < 256; readers reduce
  values modulo 256 exactly as a uint8_t store would);
- the packed little-endian struct layouts of wifi_raw_msgs.h are embedded as
  explicit byte-level readers and writers;
- the module state (the RESP_RECEIVED_BIT of the event group together with
  the s_last_response slot) is threaded explicitly;
- blocking and real time are abstracted: each command operation takes the
  transport send result and the response bytes (if any) that the transport
  delivers during the wait window as explicit parameters, and returns the
  result code, the final state, and the list of messages handed to the
  transport send primitive esp_hosted_send_custom_data.
-/

/- ─── esp_err_t codes used by wifi_raw.c (esp_err.h) ─── -/

def ESP_OK : Int := 0
def ESP_ERR_NO_MEM : Int := 0x101
def ESP_ERR_INVALID_ARG : Int := 0x102
def ESP_ERR_TIMEOUT : Int := 0x107

/- ─── Message IDs (wifi_raw_msgs.h) ─── -/

def WIFI_RAW_MSG_SET_PROMISCUOUS : Nat := 0x0100
def WIFI_RAW_MSG_SET_CHANNEL : Nat := 0x0101
def WIFI_RAW_MSG_SET_FILTER : Nat := 0x0102
def WIFI_RAW_MSG_80211_TX : Nat := 0x0103
def WIFI_RAW_MSG_CMD_RESPONSE : Nat := 0x0180
def WIFI_RAW_MSG_PROMISC_PKT : Nat := 0x0200

/- ─── Little-endian byte-level access for the packed structs ─── -/

/-- Little-endian value of the first w entries of a byte list, each reduced
modulo 256; missing bytes read as 0. This is how a packed multi-byte field is
read out of a received buffer. -/
def leReadAux : Nat → List Nat → Nat
  | 0, _ => 0
  | _ + 1, [] => 0
  | w + 1, b :: rest => b % 256 + 256 * leReadAux w rest

/-- Read a width-byte little-endian field at byte offset off of a buffer. -/
def leRead (data : List Nat) (off width : Nat) : Nat :=
  leReadAux width (data.drop off)

/-- Serialize a value as width little-endian bytes (truncating like a store
into a fixed-width packed field). -/
def leBytes : Nat → Nat → List Nat
  | _, 0 => []
  | v, w + 1 => v % 256 :: leBytes (v / 256) w

/-- Reinterpret a byte as a signed int8_t value. -/
def toInt8 (n : Nat) : Int :=
  if n % 256 < 128 then ((n % 256 : Nat) : Int) else ((n % 256 : Nat) : Int) - 256

/-- Reinterpret a 32-bit value as a signed int32_t value. -/
def toInt32 (n : Nat) : Int :=
  if n % 2 ^ 32 < 2 ^ 31 then ((n % 2 ^ 32 : Nat) : Int)
  else ((n % 2 ^ 32 : Nat) : Int) - 2 ^ 32

/- ─── Wire records (wifi_raw_msgs.h) ─── -/

/-- sizeof(wifi_raw_cmd_response_t): packed uint16_t cmd_msg_id + int32_t status. -/
def sizeof_wifi_raw_cmd_response_t : Nat := 6

/-- sizeof(wifi_raw_promisc_pkt_t): packed header uint32 type, int8 rssi,
uint8 channel, uint8 rate, uint8 sig_mode, uint32 rx_state, uint16 data_len
(the flexible data array contributes no size). -/
def sizeof_wifi_raw_promisc_pkt_t : Nat := 14

/-- sizeof(wifi_raw_cmd_80211_tx_t): packed uint8 ifx, uint8 en_sys_seq,
uint16 data_len (flexible data array contributes no size). -/
def sizeof_wifi_raw_cmd_80211_tx_t : Nat := 4

/-- wifi_raw_cmd_response_t, as stored in the s_last_response slot. -/
structure wifi_raw_cmd_response_t where
  cmd_msg_id : Nat
  status : Int
deriving Repr, DecidableEq

/-- Decode of a received buffer into wifi_raw_cmd_response_t: the memcpy in
on_cmd_response followed by reading the packed little-endian fields. -/
def parseCmdResponse (data : List Nat) : wifi_raw_cmd_response_t :=
  { cmd_msg_id := leRead data 0 2
    status := toInt32 (leRead data 2 4) }

/-- wifi_raw_rx_pkt_t (wifi_raw.h): the view handed to the registered RX
callback; payload holds the exact trailing bytes the pointer/length pair of
the C struct exposes. -/
structure wifi_raw_rx_pkt_t where
  type : Nat
  rssi : Int
  channel : Nat
  rate : Nat
  sig_mode : Nat
  rx_state : Nat
  payload : List Nat
  payload_len : Nat
deriving Repr, DecidableEq

/- ─── Correlator state (wifi_raw.c statics) ─── -/

/-- The mutable module state of wifi_raw.c that the correlator uses: the
RESP_RECEIVED_BIT of s_resp_event and the s_last_response slot. -/
structure CorrState where
  respReceived : Bool
  lastResponse : wifi_raw_cmd_response_t
deriving Repr, DecidableEq

/-- State right after wifi_raw_init: no response bit set, zeroed slot. -/
def initState : CorrState := ⟨false, ⟨0, 0⟩⟩

/-- A message handed to the transport send primitive
esp_hosted_send_custom_data: message id plus serialized payload bytes. -/
structure SentMsg where
  msg_id : Nat
  data : List Nat
deriving Repr, DecidableEq

/- ─── CustomRpc callbacks (wifi_raw.c) ─── -/

/-- on_cmd_response: if at least sizeof(wifi_raw_cmd_response_t) bytes were
delivered, memcpy into s_last_response and set RESP_RECEIVED_BIT; otherwise do
nothing. -/
def on_cmd_response (st : CorrState) (data : List Nat) : CorrState :=
  if sizeof_wifi_raw_cmd_response_t ≤ data.length then
    { respReceived := true, lastResponse := parseCmdResponse data }
  else
    st

/-- on_promisc_pkt: returns the single RX-callback invocation argument
(none if the callback is not invoked). Drops the delivery when no callback is
registered, when fewer bytes than the packed header arrived, or when the
declared data_len exceeds the bytes delivered after the header. -/
def on_promisc_pkt (rxCbRegistered : Bool) (data : List Nat) :
    Option wifi_raw_rx_pkt_t :=
  if ¬rxCbRegistered ∨ data.length < sizeof_wifi_raw_promisc_pkt_t then
    none
  else
    let dl := leRead data 12 2
    if data.length < sizeof_wifi_raw_promisc_pkt_t + dl then
      none
    else
      some
        { type := leRead data 0 4
          rssi := toInt8 (leRead data 4 1)
          channel := leRead data 5 1
          rate := leRead data 6 1
          sig_mode := leRead data 7 1
          rx_state := leRead data 8 4
          payload := (data.drop sizeof_wifi_raw_promisc_pkt_t).take dl
          payload_len := dl }

/- ─── Wait for command response (wifi_raw.c) ─── -/

/-- Fixed wait window passed as pdMS_TO_TICKS(5000) by every command. -/
def WIFI_RAW_CMD_TIMEOUT_MS : Nat := 5000

/-- Outcome of wait_cmd_response: the esp_err_t, whether the mismatch warning
was logged, and the state after xEventGroupWaitBits (which clears the bit on a
successful wait). -/
structure WaitResult where
  err : Int
  warned : Bool
  state : CorrState
deriving Repr, DecidableEq

/-- wait_cmd_response: if RESP_RECEIVED_BIT is set when the wait completes,
clear it (pdTRUE clear-on-exit), log a warning when the echoed cmd_msg_id
differs from the expected command (warning only), and return the status from
s_last_response; otherwise return ESP_ERR_TIMEOUT. Real time is abstracted:
the caller supplies the state as of the end of the wait window. -/
def wait_cmd_response (expected : Nat) (st : CorrState) : WaitResult :=
  if st.respReceived then
    { err := st.lastResponse.status
      warned := st.lastResponse.cmd_msg_id != expected
      state := { st with respReceived := false } }
  else
    { err := ESP_ERR_TIMEOUT, warned := false, state := st }

/-- Environment step: the response bytes (if any) delivered by the transport
during the wait window are fed to on_cmd_response before the wait completes. -/
def deliverDuringWait (st : CorrState) (arrival : Option (List Nat)) : CorrState :=
  match arrival with
  | none => st
  | some data => on_cmd_response st data

/- ─── Public command API (wifi_raw.c) ─── -/

/-- wifi_raw_set_promiscuous: build the 1-byte packed command, clear
RESP_RECEIVED_BIT, send, propagate a send failure immediately, otherwise wait
for the response. Returns (esp_err_t, final state, messages sent). -/
def wifi_raw_set_promiscuous (enable : Bool) (st : CorrState) (sendResult : Int)
    (arrival : Option (List Nat)) : Int × CorrState × List SentMsg :=
  let cmd : List Nat := [if enable then 1 else 0]
  let st1 : CorrState := { st with respReceived := false }
  let sends : List SentMsg := [⟨WIFI_RAW_MSG_SET_PROMISCUOUS, cmd⟩]
  if sendResult ≠ ESP_OK then
    (sendResult, st1, sends)
  else
    let w := wait_cmd_response WIFI_RAW_MSG_SET_PROMISCUOUS
      (deliverDuringWait st1 arrival)
    (w.err, w.state, sends)

/-- wifi_raw_set_channel: build the 2-byte packed command (primary, second),
clear RESP_RECEIVED_BIT, send, propagate a send failure immediately, otherwise
wait for the response. No validation of the channel values is performed. -/
def wifi_raw_set_channel (primary second : Nat) (st : CorrState) (sendResult : Int)
    (arrival : Option (List Nat)) : Int × CorrState × List SentMsg :=
  let cmd : List Nat := [primary % 256, second % 256]
  let st1 : CorrState := { st with respReceived := false }
  let sends : List SentMsg := [⟨WIFI_RAW_MSG_SET_CHANNEL, cmd⟩]
  if sendResult ≠ ESP_OK then
    (sendResult, st1, sends)
  else
    let w := wait_cmd_response WIFI_RAW_MSG_SET_CHANNEL
      (deliverDuringWait st1 arrival)
    (w.err, w.state, sends)

/-- wifi_raw_set_filter: build the 4-byte packed little-endian filter mask,
clear RESP_RECEIVED_BIT, send, propagate a send failure immediately, otherwise
wait for the response. -/
def wifi_raw_set_filter (filter_mask : Nat) (st : CorrState) (sendResult : Int)
    (arrival : Option (List Nat)) : Int × CorrState × List SentMsg :=
  let cmd : List Nat := leBytes filter_mask 4
  let st1 : CorrState := { st with respReceived := false }
  let sends : List SentMsg := [⟨WIFI_RAW_MSG_SET_FILTER, cmd⟩]
  if sendResult ≠ ESP_OK then
    (sendResult, st1, sends)
  else
    let w := wait_cmd_response WIFI_RAW_MSG_SET_FILTER
      (deliverDuringWait st1 arrival)
    (w.err, w.state, sends)

/-- wifi_raw_80211_tx: reject a null buffer, len <= 0 or len > 4000 with
ESP_ERR_INVALID_ARG before any I/O; allocate the command buffer (mallocOk
models the malloc outcome), fill the packed header (ifx, en_sys_seq, data_len)
and copy len payload bytes, clear RESP_RECEIVED_BIT, send, propagate a send
failure immediately, otherwise wait for the response. -/
def wifi_raw_80211_tx (ifx : Nat) (buffer : Option (List Nat)) (len : Int)
    (en_sys_seq : Bool) (st : CorrState) (mallocOk : Bool) (sendResult : Int)
    (arrival : Option (List Nat)) : Int × CorrState × List SentMsg :=
  if buffer = none ∨ len ≤ 0 ∨ 4000 < len then
    (ESP_ERR_INVALID_ARG, st, [])
  else if ¬mallocOk then
    (ESP_ERR_NO_MEM, st, [])
  else
    let buf := buffer.getD []
    let n := len.toNat
    let cmd : List Nat :=
      ifx % 256 :: (if en_sys_seq then 1 else 0) :: (leBytes n 2 ++ buf.take n)
    let st1 : CorrState := { st with respReceived := false }
    let sends : List SentMsg := [⟨WIFI_RAW_MSG_80211_TX, cmd⟩]
    if sendResult ≠ ESP_OK then
      (sendResult, st1, sends)
    else
      let w := wait_cmd_response WIFI_RAW_MSG_80211_TX
        (deliverDuringWait st1 arrival)
      (w.err, w.state, sends)

/-- Serialization of wifi_raw_promisc_pkt_t per its packed little-endian
layout: the Event Record the Responder transmits for a captured frame with
the given header fields and payload. -/
def mkPromiscPkt (type : Nat) (rssi : Int) (channel rate sig_mode rx_state : Nat)
    (payload : List Nat) : List Nat :=
  leBytes type 4 ++ [(rssi % 256).toNat, channel % 256, rate % 256, sig_mode % 256]
    ++ leBytes rx_state 4 ++ leBytes payload.length 2 ++ payload

/- ─── Helper lemmas ─── -/

/-- A delivery shorter than the response record leaves the signal clear. -/
lemma deliver_no_signal (st : CorrState) (arrival : Option (List Nat))
    (h : ∀ d, arrival = some d → d.length < sizeof_wifi_raw_cmd_response_t)
    (hst : st.respReceived = false) :
    (deliverDuringWait st arrival).respReceived = false := by
  cases arrival with
  | none => exact hst
  | some d =>
    have hd := h d rfl
    simp only [sizeof_wifi_raw_cmd_response_t] at hd
    simp only [deliverDuringWait, on_cmd_response, sizeof_wifi_raw_cmd_response_t]
    rw [if_neg (by omega)]
    exact hst

/-- The wait returns ESP_ERR_TIMEOUT exactly when the signal is clear. -/
lemma wait_err_of_no_signal (expected : Nat) (st : CorrState)
    (h : st.respReceived = false) :
    (wait_cmd_response expected st).err = ESP_ERR_TIMEOUT := by
  simp [wait_cmd_response, h]

/-- When the signal is set, the wait returns the stored status for every
expected tag, matching or not. -/
lemma wait_err_of_signal (expected : Nat) (st : CorrState)
    (h : st.respReceived = true) :
    (wait_cmd_response expected st).err = st.lastResponse.status := by
  simp [wait_cmd_response, h]

/-- A delivery of at least the response record size sets the signal and
stores the decoded record. -/
lemma deliver_full_response (st : CorrState) (data : List Nat)
    (h : sizeof_wifi_raw_cmd_response_t ≤ data.length) :
    deliverDuringWait st (some data)
      = { respReceived := true, lastResponse := parseCmdResponse data } := by
  simp only [deliverDuringWait, on_cmd_response]
  rw [if_pos h]

/- ─── Claims ─── -/

/-- Claim C1: a call to wifi_raw_80211_tx with a null buffer, or len <= 0, or
len > 4000, returns ESP_ERR_INVALID_ARG, leaves the state untouched, and hands
nothing to the transport send primitive (no I/O is performed). -/
theorem c1_tx_invalid_arg_no_send (ifx : Nat) (buffer : Option (List Nat))
    (len : Int) (en_sys_seq : Bool) (st : CorrState) (mallocOk : Bool)
    (sendResult : Int) (arrival : Option (List Nat))
    (h : buffer = none ∨ len ≤ 0 ∨ 4000 < len) :
    wifi_raw_80211_tx ifx buffer len en_sys_seq st mallocOk sendResult arrival
      = (ESP_ERR_INVALID_ARG, st, []) := by
  simp only [wifi_raw_80211_tx]
  rw [if_pos h]

/-- Witness for C1 at len = 4001 with a non-null buffer. -/
theorem c1_tx_invalid_arg_no_send_witness :
    ((some [1] : Option (List Nat)) = none ∨ (4001 : Int) ≤ 0 ∨ (4000 : Int) < 4001) ∧
    wifi_raw_80211_tx 7 (some [1]) 4001 false initState true ESP_OK none
      = (ESP_ERR_INVALID_ARG, initState, []) :=
  ⟨by decide,
   c1_tx_invalid_arg_no_send 7 (some [1]) 4001 false initState true ESP_OK none
     (by decide)⟩

/-- Claim C10: a response delivery shorter than sizeof(wifi_raw_cmd_response_t)
(6 bytes) leaves the last-response slot unchanged and does not set the
response-received signal. -/
theorem c10_truncated_response_ignored (st : CorrState) (data : List Nat)
    (h : data.length < sizeof_wifi_raw_cmd_response_t) :
    on_cmd_response st data = st := by
  simp only [sizeof_wifi_raw_cmd_response_t] at h
  simp only [on_cmd_response, sizeof_wifi_raw_cmd_response_t]
  rw [if_neg (by omega)]

/-- Witness for C10 at a 3-byte delivery. -/
theorem c10_truncated_response_ignored_witness :
    ([1, 2, 3] : List Nat).length < sizeof_wifi_raw_cmd_response_t ∧
    on_cmd_response initState [1, 2, 3] = initState :=
  ⟨by decide, c10_truncated_response_ignored initState [1, 2, 3] (by decide)⟩

/-- Claim C6: an event delivery shorter than the Event Record header, or whose
declared data_len exceeds the bytes delivered beyond the header, produces zero
consumer invocations (the record is silently dropped), whether or not a
consumer is registered. -/
theorem c6_malformed_event_dropped (rxCbRegistered : Bool) (data : List Nat)
    (h : data.length < sizeof_wifi_raw_promisc_pkt_t ∨
         data.length < sizeof_wifi_raw_promisc_pkt_t + leRead data 12 2) :
    on_promisc_pkt rxCbRegistered data = none := by
  simp only [on_promisc_pkt]
  split
  · rfl
  · rename_i h1
    push_neg at h1
    split
    · rfl
    · rename_i h2
      rcases h with h | h
      · exact absurd h (by omega)
      · exact absurd h (by omega)

/-- Witness for C6 at a 3-byte delivery with a consumer registered. -/
theorem c6_malformed_event_dropped_witness :
    (([1, 2, 3] : List Nat).length < sizeof_wifi_raw_promisc_pkt_t ∨
     ([1, 2, 3] : List Nat).length < sizeof_wifi_raw_promisc_pkt_t + leRead [1, 2, 3] 12 2) ∧
    on_promisc_pkt true [1, 2, 3] = none :=
  ⟨by decide, c6_malformed_event_dropped true [1, 2, 3] (by decide)⟩

/-- Counterexample to claim C9: wifi_raw_set_channel with primary channel 15
(outside 1-14) still hands the command to the transport send primitive and
does not return ESP_ERR_INVALID_ARG (with no response it returns
ESP_ERR_TIMEOUT). -/
theorem c9_counterexample :
    (wifi_raw_set_channel 15 0 initState ESP_OK none).2.2
      = [⟨WIFI_RAW_MSG_SET_CHANNEL, [15, 0]⟩] ∧
    (wifi_raw_set_channel 15 0 initState ESP_OK none).1 = ESP_ERR_TIMEOUT := by
  decide

/-- Claim C9 (amended): wifi_raw_set_channel performs no range validation on
its parameters: for every primary and second value, including primary outside
1-14, it hands exactly one serialized command to the transport send primitive,
and with no response it returns ESP_ERR_TIMEOUT, never an argument error.
Parameter validation before transmission exists only in wifi_raw_80211_tx. -/
theorem c9_amended_no_channel_validation (primary second : Nat) (st : CorrState)
    (sendResult : Int) (arrival : Option (List Nat)) :
    (wifi_raw_set_channel primary second st sendResult arrival).2.2
      = [⟨WIFI_RAW_MSG_SET_CHANNEL, [primary % 256, second % 256]⟩] ∧
    (wifi_raw_set_channel primary second st ESP_OK none).1 = ESP_ERR_TIMEOUT := by
  constructor
  · simp only [wifi_raw_set_channel]
    split <;> rfl
  · simp only [wifi_raw_set_channel]
    rw [if_neg (by decide)]
    exact wait_err_of_no_signal _ _ rfl

/-- Claim C4: when the transport send primitive fails, each of the four
command operations returns that same failure code with the signal cleared and
the command serialized, and the outcome is independent of anything delivered
during a wait window (the wait/timeout path is not executed). -/
theorem c4_send_failure_propagates (en : Bool) (primary second filter ifx : Nat)
    (buf : List Nat) (len : Int) (seq : Bool) (st : CorrState) (sendResult : Int)
    (arrival : Option (List Nat)) (hs : sendResult ≠ ESP_OK)
    (h1 : 0 < len) (h2 : len ≤ 4000) :
    wifi_raw_set_promiscuous en st sendResult arrival
      = (sendResult, { st with respReceived := false },
         [⟨WIFI_RAW_MSG_SET_PROMISCUOUS, [if en then 1 else 0]⟩]) ∧
    wifi_raw_set_channel primary second st sendResult arrival
      = (sendResult, { st with respReceived := false },
         [⟨WIFI_RAW_MSG_SET_CHANNEL, [primary % 256, second % 256]⟩]) ∧
    wifi_raw_set_filter filter st sendResult arrival
      = (sendResult, { st with respReceived := false },
         [⟨WIFI_RAW_MSG_SET_FILTER, leBytes filter 4⟩]) ∧
    wifi_raw_80211_tx ifx (some buf) len seq st true sendResult arrival
      = (sendResult, { st with respReceived := false },
         [⟨WIFI_RAW_MSG_80211_TX,
           ifx % 256 :: (if seq then 1 else 0)
             :: (leBytes len.toNat 2 ++ buf.take len.toNat)⟩]) := by
  have hv : ¬((some buf : Option (List Nat)) = none ∨ len ≤ 0 ∨ 4000 < len) := by
    push_neg
    exact ⟨by simp, by omega, by omega⟩
  refine ⟨?_, ?_, ?_, ?_⟩
  · simp only [wifi_raw_set_promiscuous]
    rw [if_pos hs]
  · simp only [wifi_raw_set_channel]
    rw [if_pos hs]
  · simp only [wifi_raw_set_filter]
    rw [if_pos hs]
  · simp only [wifi_raw_80211_tx]
    rw [if_neg hv, if_neg (by simp), if_pos hs]
    rfl

/-- Witness for C4 with send failing as ESP_ERR_NO_MEM while a well-formed
response would have been delivered during a wait. -/
theorem c4_send_failure_propagates_witness :
    (ESP_ERR_NO_MEM ≠ ESP_OK ∧ (0 : Int) < 1 ∧ (1 : Int) ≤ 4000) ∧
    wifi_raw_set_promiscuous true initState ESP_ERR_NO_MEM (some [0, 1, 0, 0, 0, 0])
      = (ESP_ERR_NO_MEM, { initState with respReceived := false },
         [⟨WIFI_RAW_MSG_SET_PROMISCUOUS, [1]⟩]) :=
  ⟨⟨by decide, by decide, by decide⟩,
   (c4_send_failure_propagates true 1 1 0 0 [5] 1 false initState ESP_ERR_NO_MEM
     (some [0, 1, 0, 0, 0, 0]) (by decide) (by decide) (by decide)).1⟩

/-- Claim C5: each command operation clears the response-received signal
before invoking the transport send: starting from any state, in particular one
left by a timed-out call whose late response set the signal afterwards, a new
call with no response delivery times out (the stale signal never satisfies the
new wait) and leaves the signal clear. -/
theorem c5_signal_cleared_before_send (en : Bool) (primary second filter ifx : Nat)
    (buf : List Nat) (len : Int) (seq : Bool) (st : CorrState)
    (h1 : 0 < len) (h2 : len ≤ 4000) :
    ((wifi_raw_set_promiscuous en st ESP_OK none).1 = ESP_ERR_TIMEOUT ∧
     (wifi_raw_set_promiscuous en st ESP_OK none).2.1.respReceived = false) ∧
    ((wifi_raw_set_channel primary second st ESP_OK none).1 = ESP_ERR_TIMEOUT ∧
     (wifi_raw_set_channel primary second st ESP_OK none).2.1.respReceived = false) ∧
    ((wifi_raw_set_filter filter st ESP_OK none).1 = ESP_ERR_TIMEOUT ∧
     (wifi_raw_set_filter filter st ESP_OK none).2.1.respReceived = false) ∧
    ((wifi_raw_80211_tx ifx (some buf) len seq st true ESP_OK none).1 = ESP_ERR_TIMEOUT ∧
     (wifi_raw_80211_tx ifx (some buf) len seq st true ESP_OK none).2.1.respReceived
       = false) := by
  have hv : ¬((some buf : Option (List Nat)) = none ∨ len ≤ 0 ∨ 4000 < len) := by
    push_neg
    exact ⟨by simp, by omega, by omega⟩
  have hp : (wifi_raw_set_promiscuous en st ESP_OK none).1 = ESP_ERR_TIMEOUT ∧
      (wifi_raw_set_promiscuous en st ESP_OK none).2.1.respReceived = false := by
    simp only [wifi_raw_set_promiscuous]
    rw [if_neg (by decide)]
    exact ⟨rfl, rfl⟩
  have hc : (wifi_raw_set_channel primary second st ESP_OK none).1 = ESP_ERR_TIMEOUT ∧
      (wifi_raw_set_channel primary second st ESP_OK none).2.1.respReceived = false := by
    simp only [wifi_raw_set_channel]
    rw [if_neg (by decide)]
    exact ⟨rfl, rfl⟩
  have hf : (wifi_raw_set_filter filter st ESP_OK none).1 = ESP_ERR_TIMEOUT ∧
      (wifi_raw_set_filter filter st ESP_OK none).2.1.respReceived = false := by
    simp only [wifi_raw_set_filter]
    rw [if_neg (by decide)]
    exact ⟨rfl, rfl⟩
  have ht : (wifi_raw_80211_tx ifx (some buf) len seq st true ESP_OK none).1
        = ESP_ERR_TIMEOUT ∧
      (wifi_raw_80211_tx ifx (some buf) len seq st true ESP_OK none).2.1.respReceived
        = false := by
    simp only [wifi_raw_80211_tx]
    rw [if_neg hv, if_neg (by simp), if_neg (by decide)]
    exact ⟨rfl, rfl⟩
  exact ⟨hp, hc, hf, ht⟩

/-- Witness for C5 starting from a state whose signal is stale (set). -/
theorem c5_signal_cleared_before_send_witness :
    ((0 : Int) < 2 ∧ (2 : Int) ≤ 4000) ∧
    ((wifi_raw_set_promiscuous false ⟨true, ⟨0x0100, 0⟩⟩ ESP_OK none).1
       = ESP_ERR_TIMEOUT ∧
     (wifi_raw_set_promiscuous false ⟨true, ⟨0x0100, 0⟩⟩ ESP_OK none).2.1.respReceived
       = false) :=
  ⟨⟨by decide, by decide⟩,
   (c5_signal_cleared_before_send false 3 0 0 0 [1, 2] 2 false ⟨true, ⟨0x0100, 0⟩⟩
     (by decide) (by decide)).1⟩

/-- Claim C3: when the transport send succeeded but no full Response Record
delivery sets the signal within the wait window (nothing arrives, or only a
truncated delivery arrives), each of the four command operations returns
ESP_ERR_TIMEOUT. -/
theorem c3_timeout_when_no_response (en : Bool) (primary second filter ifx : Nat)
    (buf : List Nat) (len : Int) (seq : Bool) (st : CorrState)
    (arrival : Option (List Nat))
    (harr : ∀ d, arrival = some d → d.length < sizeof_wifi_raw_cmd_response_t)
    (h1 : 0 < len) (h2 : len ≤ 4000) :
    (wifi_raw_set_promiscuous en st ESP_OK arrival).1 = ESP_ERR_TIMEOUT ∧
    (wifi_raw_set_channel primary second st ESP_OK arrival).1 = ESP_ERR_TIMEOUT ∧
    (wifi_raw_set_filter filter st ESP_OK arrival).1 = ESP_ERR_TIMEOUT ∧
    (wifi_raw_80211_tx ifx (some buf) len seq st true ESP_OK arrival).1
      = ESP_ERR_TIMEOUT := by
  have hv : ¬((some buf : Option (List Nat)) = none ∨ len ≤ 0 ∨ 4000 < len) := by
    push_neg
    exact ⟨by simp, by omega, by omega⟩
  have key : ∀ tag : Nat,
      (wait_cmd_response tag
        (deliverDuringWait { st with respReceived := false } arrival)).err
        = ESP_ERR_TIMEOUT := by
    intro tag
    exact wait_err_of_no_signal tag _ (deliver_no_signal _ arrival harr rfl)
  refine ⟨?_, ?_, ?_, ?_⟩
  · simp only [wifi_raw_set_promiscuous]
    rw [if_neg (by decide)]
    exact key _
  · simp only [wifi_raw_set_channel]
    rw [if_neg (by decide)]
    exact key _
  · simp only [wifi_raw_set_filter]
    rw [if_neg (by decide)]
    exact key _
  · simp only [wifi_raw_80211_tx]
    rw [if_neg hv, if_neg (by simp), if_neg (by decide)]
    exact key _

/-- Witness for C3: a 1-byte truncated delivery still yields a timeout. -/
theorem c3_timeout_when_no_response_witness :
    (∀ d : List Nat, (some [9] : Option (List Nat)) = some d →
      d.length < sizeof_wifi_raw_cmd_response_t) ∧
    (wifi_raw_set_promiscuous true initState ESP_OK (some [9])).1
      = ESP_ERR_TIMEOUT :=
  ⟨fun d hd => by injection hd with h; subst h; decide,
   (c3_timeout_when_no_response true 1 0 0 0 [1] 1 false initState (some [9])
     (fun d hd => by injection hd with h; subst h; decide)
     (by decide) (by decide)).1⟩

/-- Claim C2: when a full Response Record arrives during the wait window, each
of the four command operations returns the status code stored in the decoded
last-response record, whatever the echoed command tag; and for every state
with the signal set, wait_cmd_response returns the stored status for every
expected tag (matching or not), so a mismatch never changes the returned
value. -/
theorem c2_response_status_returned (en : Bool) (primary second filter ifx : Nat)
    (buf : List Nat) (len : Int) (seq : Bool) (st : CorrState) (data : List Nat)
    (hd : sizeof_wifi_raw_cmd_response_t ≤ data.length)
    (h1 : 0 < len) (h2 : len ≤ 4000) :
    (wifi_raw_set_promiscuous en st ESP_OK (some data)).1
      = (parseCmdResponse data).status ∧
    (wifi_raw_set_channel primary second st ESP_OK (some data)).1
      = (parseCmdResponse data).status ∧
    (wifi_raw_set_filter filter st ESP_OK (some data)).1
      = (parseCmdResponse data).status ∧
    (wifi_raw_80211_tx ifx (some buf) len seq st true ESP_OK (some data)).1
      = (parseCmdResponse data).status ∧
    (∀ expected st2, st2.respReceived = true →
      (wait_cmd_response expected st2).err = st2.lastResponse.status) := by
  have hv : ¬((some buf : Option (List Nat)) = none ∨ len ≤ 0 ∨ 4000 < len) := by
    push_neg
    exact ⟨by simp, by omega, by omega⟩
  have key : ∀ tag : Nat,
      (wait_cmd_response tag
        (deliverDuringWait { st with respReceived := false } (some data))).err
        = (parseCmdResponse data).status := by
    intro tag
    rw [deliver_full_response _ data hd]
    rfl
  refine ⟨?_, ?_, ?_, ?_, wait_err_of_signal⟩
  · simp only [wifi_raw_set_promiscuous]
    rw [if_neg (by decide)]
    exact key _
  · simp only [wifi_raw_set_channel]
    rw [if_neg (by decide)]
    exact key _
  · simp only [wifi_raw_set_filter]
    rw [if_neg (by decide)]
    exact key _
  · simp only [wifi_raw_80211_tx]
    rw [if_neg hv, if_neg (by simp), if_neg (by decide)]
    exact key _

/-- Witness for C2: a response echoing tag 0x0101 completes a
wifi_raw_set_promiscuous call (whose own tag is 0x0100) with the status 42
carried in the record. -/
theorem c2_response_status_returned_witness :
    sizeof_wifi_raw_cmd_response_t ≤ ([1, 1, 42, 0, 0, 0] : List Nat).length ∧
    (wifi_raw_set_promiscuous true initState ESP_OK (some [1, 1, 42, 0, 0, 0])).1
      = 42 :=
  ⟨by decide,
   by
     have h := (c2_response_status_returned true 1 0 0 0 [1] 1 false initState
       [1, 1, 42, 0, 0, 0] (by decide) (by decide) (by decide)).1
     rw [h]
     decide⟩

/-- Claim C8: for a valid buffer and len in (0, 4000], the Command Record
handed to the transport send by wifi_raw_80211_tx is one message on the
injection tag whose total size equals the fixed header size plus len, whose
data_len field equals len, and whose trailing bytes equal the caller buffer,
byte for byte. -/
theorem c8_tx_record_wellformed (ifx : Nat) (buf : List Nat) (len : Int)
    (seq : Bool) (st : CorrState) (sendResult : Int) (arrival : Option (List Nat))
    (h1 : 0 < len) (h2 : len ≤ 4000) (hbuf : buf.length = len.toNat) :
    ∃ rec : List Nat,
      (wifi_raw_80211_tx ifx (some buf) len seq st true sendResult arrival).2.2
        = [⟨WIFI_RAW_MSG_80211_TX, rec⟩] ∧
      rec.length = sizeof_wifi_raw_cmd_80211_tx_t + len.toNat ∧
      leRead rec 2 2 = len.toNat ∧
      rec.drop sizeof_wifi_raw_cmd_80211_tx_t = buf := by
  have hv : ¬((some buf : Option (List Nat)) = none ∨ len ≤ 0 ∨ 4000 < len) := by
    push_neg
    exact ⟨by simp, by omega, by omega⟩
  have htake : buf.take len.toNat = buf := by
    rw [← hbuf]
    exact List.take_length buf
  refine ⟨ifx % 256 :: (if seq then 1 else 0) :: (leBytes len.toNat 2 ++ buf),
    ?_, ?_, ?_, ?_⟩
  · simp only [wifi_raw_80211_tx]
    rw [if_neg hv, if_neg (by simp)]
    split
    · simp [htake]
    · simp [htake]
  · have h0 : (ifx % 256 :: (if seq then 1 else 0)
        :: (leBytes len.toNat 2 ++ buf)).length = buf.length + 1 + 1 + 1 + 1 := rfl
    simp only [sizeof_wifi_raw_cmd_80211_tx_t]
    omega
  · have h0 : leRead (ifx % 256 :: (if seq then 1 else 0)
        :: (leBytes len.toNat 2 ++ buf)) 2 2
        = len.toNat % 256 % 256 + 256 * (len.toNat / 256 % 256 % 256 + 256 * 0) := by
      cases seq <;> rfl
    omega
  · cases seq <;> rfl

/-- Witness for C8 at a 3-byte frame. -/
theorem c8_tx_record_wellformed_witness :
    ((0 : Int) < 3 ∧ (3 : Int) ≤ 4000 ∧
      ([170, 187, 204] : List Nat).length = (3 : Int).toNat) ∧
    ∃ rec : List Nat,
      (wifi_raw_80211_tx 1 (some [170, 187, 204]) 3 true initState true ESP_OK
        none).2.2 = [⟨WIFI_RAW_MSG_80211_TX, rec⟩] ∧
      rec.length = sizeof_wifi_raw_cmd_80211_tx_t + (3 : Int).toNat ∧
      leRead rec 2 2 = (3 : Int).toNat ∧
      rec.drop sizeof_wifi_raw_cmd_80211_tx_t = [170, 187, 204] :=
  ⟨⟨by decide, by decide, by decide⟩,
   c8_tx_record_wellformed 1 [170, 187, 204] 3 true initState ESP_OK none
     (by decide) (by decide) (by decide)⟩

/-- Claim C7: every structurally valid event delivery (byte count at least the
header size and at least header size plus declared data_len) with a consumer
registered yields exactly one consumer invocation whose view exposes exactly
the declared trailing bytes (never any slack bytes delivered beyond them);
and a delivery consisting of a packed Event Record built from in-range header
fields and a payload, followed by arbitrary trailing slack, yields one
invocation carrying the same six metadata fields and exactly the payload,
byte for byte. -/
theorem c7_event_record_roundtrip (type : Nat) (rssi : Int)
    (channel rate sig_mode rx_state : Nat) (payload slack : List Nat)
    (htype : type < 2 ^ 32) (hlo : -128 ≤ rssi) (hhi : rssi < 128)
    (hch : channel < 256) (hrate : rate < 256) (hsig : sig_mode < 256)
    (hrx : rx_state < 2 ^ 32) (hlen : payload.length < 2 ^ 16) :
    (∀ data : List Nat, sizeof_wifi_raw_promisc_pkt_t ≤ data.length →
      sizeof_wifi_raw_promisc_pkt_t + leRead data 12 2 ≤ data.length →
      ∃ pkt : wifi_raw_rx_pkt_t, on_promisc_pkt true data = some pkt ∧
        pkt.payload
          = (data.drop sizeof_wifi_raw_promisc_pkt_t).take (leRead data 12 2) ∧
        pkt.payload.length = leRead data 12 2 ∧
        pkt.payload_len = leRead data 12 2) ∧
    on_promisc_pkt true
        (mkPromiscPkt type rssi channel rate sig_mode rx_state payload ++ slack)
      = some { type := type, rssi := rssi, channel := channel, rate := rate,
               sig_mode := sig_mode, rx_state := rx_state, payload := payload,
               payload_len := payload.length } := by
  constructor
  · intro data hd1 hd2
    simp only [sizeof_wifi_raw_promisc_pkt_t] at hd1 hd2
    simp only [on_promisc_pkt, sizeof_wifi_raw_promisc_pkt_t]
    split
    · rename_i h
      rcases h with h | h
      · simp at h
      · omega
    · split
      · rename_i h
        omega
      · refine ⟨_, rfl, rfl, ?_, rfl⟩
        rw [List.length_take, List.length_drop]
        omega
  · have hdl : leRead
        (mkPromiscPkt type rssi channel rate sig_mode rx_state payload ++ slack)
        12 2 = payload.length := by
      have h0 : leRead
          (mkPromiscPkt type rssi channel rate sig_mode rx_state payload ++ slack)
          12 2
          = payload.length % 256 % 256
            + 256 * (payload.length / 256 % 256 % 256 + 256 * 0) := rfl
      omega
    have hlength : (mkPromiscPkt type rssi channel rate sig_mode rx_state payload
        ++ slack).length = 14 + payload.length + slack.length := by
      have h0 : (mkPromiscPkt type rssi channel rate sig_mode rx_state payload
          ++ slack).length
          = (payload ++ slack).length
            + 1 + 1 + 1 + 1 + 1 + 1 + 1 + 1 + 1 + 1 + 1 + 1 + 1 + 1 := rfl
      have hps : (payload ++ slack).length = payload.length + slack.length := by
        simp
      omega
    have hty : leRead
        (mkPromiscPkt type rssi channel rate sig_mode rx_state payload ++ slack)
        0 4 = type := by
      have h0 : leRead
          (mkPromiscPkt type rssi channel rate sig_mode rx_state payload ++ slack)
          0 4
          = type % 256 % 256 + 256 * (type / 256 % 256 % 256
            + 256 * (type / 256 / 256 % 256 % 256
              + 256 * (type / 256 / 256 / 256 % 256 % 256 + 256 * 0))) := rfl
      omega
    have hrssi : toInt8 (leRead
        (mkPromiscPkt type rssi channel rate sig_mode rx_state payload ++ slack)
        4 1) = rssi := by
      have h0 : leRead
          (mkPromiscPkt type rssi channel rate sig_mode rx_state payload ++ slack)
          4 1 = (rssi % 256).toNat % 256 + 256 * 0 := rfl
      rw [h0]
      unfold toInt8
      split <;> omega
    have hchn : leRead
        (mkPromiscPkt type rssi channel rate sig_mode rx_state payload ++ slack)
        5 1 = channel := by
      have h0 : leRead
          (mkPromiscPkt type rssi channel rate sig_mode rx_state payload ++ slack)
          5 1 = channel % 256 % 256 + 256 * 0 := rfl
      omega
    have hrate2 : leRead
        (mkPromiscPkt type rssi channel rate sig_mode rx_state payload ++ slack)
        6 1 = rate := by
      have h0 : leRead
          (mkPromiscPkt type rssi channel rate sig_mode rx_state payload ++ slack)
          6 1 = rate % 256 % 256 + 256 * 0 := rfl
      omega
    have hsig2 : leRead
        (mkPromiscPkt type rssi channel rate sig_mode rx_state payload ++ slack)
        7 1 = sig_mode := by
      have h0 : leRead
          (mkPromiscPkt type rssi channel rate sig_mode rx_state payload ++ slack)
          7 1 = sig_mode % 256 % 256 + 256 * 0 := rfl
      omega
    have hrxs : leRead
        (mkPromiscPkt type rssi channel rate sig_mode rx_state payload ++ slack)
        8 4 = rx_state := by
      have h0 : leRead
          (mkPromiscPkt type rssi channel rate sig_mode rx_state payload ++ slack)
          8 4
          = rx_state % 256 % 256 + 256 * (rx_state / 256 % 256 % 256
            + 256 * (rx_state / 256 / 256 % 256 % 256
              + 256 * (rx_state / 256 / 256 / 256 % 256 % 256 + 256 * 0))) := rfl
      omega
    have hdrop : List.drop sizeof_wifi_raw_promisc_pkt_t
        (mkPromiscPkt type rssi channel rate sig_mode rx_state payload ++ slack)
        = payload ++ slack := rfl
    simp only [on_promisc_pkt, hdl, hlength]
    split
    · rename_i h
      rcases h with h | h
      · exact absurd trivial h
      · exfalso
        simp only [sizeof_wifi_raw_promisc_pkt_t] at h
        omega
    · split
      · rename_i h2
        exfalso
        simp only [sizeof_wifi_raw_promisc_pkt_t] at h2
        omega
      · rw [hty, hrssi, hchn, hrate2, hsig2, hrxs, hdrop, List.take_left]

/-- Witness for C7 at the record with type 2, rssi -40, channel 6, rate 11,
sig_mode 1, rx_state 0, the 3-byte payload 01 02 03, and two trailing slack
bytes (a 19-byte delivery whose declared data_len is 3): the view carries
exactly the 3 declared payload bytes. -/
theorem c7_event_record_roundtrip_witness :
    (2 < 2 ^ 32 ∧ -128 ≤ (-40 : Int) ∧ (-40 : Int) < 128 ∧ 6 < 256 ∧ 11 < 256 ∧
      1 < 256 ∧ 0 < 2 ^ 32 ∧ ([1, 2, 3] : List Nat).length < 2 ^ 16) ∧
    on_promisc_pkt true (mkPromiscPkt 2 (-40) 6 11 1 0 [1, 2, 3] ++ [255, 238])
      = some { type := 2, rssi := -40, channel := 6, rate := 11, sig_mode := 1,
               rx_state := 0, payload := [1, 2, 3], payload_len := 3 } :=
  ⟨⟨by decide, by decide, by decide, by decide, by decide, by decide, by decide,
    by decide⟩,
   (c7_event_record_roundtrip 2 (-40) 6 11 1 0 [1, 2, 3] [255, 238] (by decide)
     (by decide) (by decide) (by decide) (by decide) (by decide) (by decide)
     (by decide)).2⟩
